import Mathlib

/-!
Shallow embedding of the telemetry-to-packet pipeline of
deepcool-digital-linux (files `src/monitor/cpu.rs` and
`src/devices/ak400_pro.rs`).

Modelling conventions:
* Rust unsigned machine integers (`u8`, `u16`, `u32`, `u64`) are embedded as
  `ℕ`; the realistic sensor/counter magnitudes handled by this program are far
  below the type bounds, so wrap-around is not modelled.  Where the source
  narrows a value to a byte (`to_be_bytes`, `as u8`) the embedding takes the
  corresponding `% 256` / saturation explicitly.
* Rust `f32`/`f64` arithmetic is embedded as exact arithmetic over `ℚ`.
  `f{32,64}::round` (round half away from zero) coincides with Mathlib's
  `round` (round half up) on the non-negative values these functions produce;
  for the possibly-negative usage value the two conventions can differ only at
  exact negative halves, where the subsequent clamp to `[0, 100]` absorbs the
  difference.
* Rust saturating float-to-integer `as` casts are embedded as explicit
  clamps (`natCastU8`, and `Int.toNat` after `min _ 999` for the power value,
  which is enough because the value is already bounded above by 999).
* Fallible file reads followed by parsing (`read_to_string` + `parse`) are
  embedded as an `Option ℕ` argument supplied by the environment: `some v`
  is a successful read that parses to `v`, `none` is a failed read or parse.
* The infinite device loop is embedded one iteration at a time.  Wall-clock
  time is threaded explicitly: effectful reads receive the current clock, and
  the single `sleep(self.update)` advances the clock by the update interval,
  so the temporal ordering of the source statements is visible in the model.
-/

set_option maxRecDepth 2000

namespace DeepCool

/-- State of `Cpu` (`cpu.rs`): the probed hwmon sensor path (`temp_sensor`,
`None` when no supported sensor exists) and the probed RAPL maximum energy
range in µJ (`rapl_max_uj`, `0` when RAPL is unavailable).  Both are
established once at construction and never change. -/
structure Cpu where
  temp_sensor : Option String
  rapl_max_uj : ℕ

/-- Saturating cast of an integer to a byte, the behaviour of Rust's
`as u8` on an (integral) float value. -/
def natCastU8 (z : ℤ) : ℕ := (min (max z 0) 255).toNat

/-- `Cpu::read_energy` (`cpu.rs` lines 64–76): returns 0 when RAPL is absent,
otherwise the parsed live counter value, with 0 on a failed read or parse.
`raw` is the outcome of reading and parsing `energy_uj`. -/
def read_energy (cpu : Cpu) (raw : Option ℕ) : ℕ :=
  if cpu.rapl_max_uj = 0 then 0
  else
    match raw with
    | some v => v
    | none => 0

/-- `Cpu::get_temp` (`cpu.rs` lines 42–61): 0 when no sensor was probed or the
read/parse fails; otherwise the raw milli-degree value, converted to
milli-Fahrenheit by `t * 9 / 5 + 32000` when requested, divided by 1000,
rounded, and cast to `u8`.  `raw` is the outcome of reading and parsing the
sensor file. -/
def get_temp (cpu : Cpu) (raw : Option ℕ) (fahrenheit : Bool) : ℕ :=
  match cpu.temp_sensor with
  | none => 0
  | some _ =>
    match raw with
    | none => 0
    | some t =>
      let temp : ℕ := if fahrenheit then t * 9 / 5 + 32000 else t
      natCastU8 (round ((temp : ℚ) / 1000))

/-- `Cpu::get_power` (`cpu.rs` lines 81–101): 0 when RAPL is absent, the
baseline energy is 0, the elapsed time is 0, or the live reading is 0;
otherwise the wraparound-corrected energy delta divided by
`delta_millisec * 1000`, rounded and capped at 999.  `energyRaw` is the
outcome of the live `read_energy` file read made inside the call. -/
def get_power (cpu : Cpu) (initial_energy delta_millisec : ℕ)
    (energyRaw : Option ℕ) : ℕ :=
  if cpu.rapl_max_uj = 0 ∨ initial_energy = 0 ∨ delta_millisec = 0 then 0
  else
    let current_energy := read_energy cpu energyRaw
    if current_energy = 0 then 0
    else
      let delta_energy :=
        if current_energy ≥ initial_energy then current_energy - initial_energy
        else (cpu.rapl_max_uj + current_energy) - initial_energy
      (min (round ((delta_energy : ℚ) / ((delta_millisec : ℚ) * 1000))) 999).toNat

/-- `Cpu::get_usage` (`cpu.rs` lines 112–115): the non-idle fraction of the
CPU-instant delta, scaled to a percentage, rounded, clamped to `[0, 100]` and
cast to `u8`.  `nonIdleDelta` is the fraction produced by the external
CPU-accounting primitive for the two instants. -/
def get_usage (nonIdleDelta : ℚ) : ℕ :=
  let usage := nonIdleDelta * 100
  (min (max (round usage) 0) 100).toNat

/-- Fuel-driven helper for `floorLog2`, structurally recursive so that the
kernel can evaluate it. -/
def log2Aux : ℕ → ℕ → ℕ
  | 0, _ => 0
  | fuel + 1, n => if n ≥ 2 then log2Aux fuel (n / 2) + 1 else 0

/-- Floor of the base-2 logarithm (`⌊log2 n⌋`, with `floorLog2 0 = 0`). -/
def floorLog2 (n : ℕ) : ℕ := log2Aux n n

/-- Bit pattern of the IEEE-754 binary32 encoding of a natural number `n`
(exact for every `n < 2 ^ 24`, hence for every byte-sized temperature the
program encodes): sign 0, biased exponent `127 + ⌊log2 n⌋`, and the leading
`⌊log2 n⌋` fractional bits of the normalised mantissa. -/
def f32BitsOfNat (n : ℕ) : ℕ :=
  if n = 0 then 0
  else (127 + floorLog2 n) * 2 ^ 23 + (n * 2 ^ 23 / 2 ^ floorLog2 n - 2 ^ 23)

/-- The constant 64-byte base HID packet `base_data`
(`ak400_pro.rs` lines 45–56): the 8 header constants followed by zeros. -/
def base_data : List ℕ := [16, 104, 1, 2, 11, 1, 2, 5] ++ List.replicate 56 0

/-- Modulo-256 sum of bytes 1 through 15 of a packet, the quantity the loop
stores in byte 16 (`ak400_pro.rs` lines 93–98). -/
def checksum (d : List ℕ) : ℕ := ((d.drop 1).take 15).sum % 256

/-- One packet construction of the loop body (`ak400_pro.rs` lines 60 and
77–99): start from a fresh copy of `base_data`, stamp the power bytes
(big-endian `u16`), the unit flag, the temperature as a big-endian IEEE-754
`f32`, the usage byte, then the mod-256 checksum of bytes 1–15 and the
terminator 22. -/
def stampPacket (fahrenheit : Bool) (power temp usage : ℕ) : List ℕ :=
  let d0 := base_data
  let d1 := (d0.set 8 (power % 65536 / 256)).set 9 (power % 256)
  let bits := f32BitsOfNat temp
  let d2 := d1.set 10 (if fahrenheit then 1 else 0)
  let d3 := (((d2.set 11 (bits / 2 ^ 24 % 256)).set 12
      (bits / 2 ^ 16 % 256)).set 13 (bits / 2 ^ 8 % 256)).set 14 (bits % 256)
  let d4 := d3.set 15 usage
  let c := ((d4.drop 1).take 15).sum
  let d5 := d4.set 16 (c % 256)
  d5.set 17 22

/-- Environment of one loop iteration: the time-indexed outcomes of the
sensor file read, the energy counter file read, and the non-idle fraction the
CPU-accounting primitive reports between the instants captured at two given
times. -/
structure World where
  tempRaw : ℕ → Option ℕ
  energyRaw : ℕ → Option ℕ
  nonIdle : ℕ → ℕ → ℚ

/-- One iteration of `Display::run_device`'s loop (`ak400_pro.rs` lines
58–102), with the wall clock threaded explicitly in source-statement order:
the baseline CPU instant and the baseline energy are read at the entry clock
`t0`, `sleep(self.update)` advances the clock to `t0 + update`, and power,
temperature and usage are computed from reads at the advanced clock.  Returns
the transmitted packet and the clock at the end of the iteration. -/
def runIteration (cpu : Cpu) (fahrenheit : Bool) (update : ℕ) (w : World)
    (t0 : ℕ) : List ℕ × ℕ :=
  let cpu_instant := t0
  let cpu_energy := read_energy cpu (w.energyRaw t0)
  let t1 := t0 + update
  let power :=
    if cpu_energy > 0 then get_power cpu cpu_energy update (w.energyRaw t1)
    else 0
  let temp := get_temp cpu (w.tempRaw t1) fahrenheit
  let usage := get_usage (w.nonIdle cpu_instant t1)
  (stampPacket fahrenheit power temp usage, t1)

/-- Sanity check of the binary32 encoder on the spec's worked example:
45.0 encodes as `0x42340000`. -/
theorem f32BitsOfNat_45 : f32BitsOfNat 45 = 0x42340000 := by decide

/-- Bytes 1 through 15 of two 64-byte buffers that agree at offsets 1–15 form
the same slice. -/
lemma slice_1_15_congr (p q : List ℕ) (hp : p.length = 64) (hq : q.length = 64)
    (h : ∀ i, 1 ≤ i → i ≤ 15 → p.getD i 0 = q.getD i 0) :
    (p.drop 1).take 15 = (q.drop 1).take 15 := by
  apply List.ext_getElem
  · simp [hp, hq]
  · intro i h1 h2
    have hi : i < 15 := lt_of_lt_of_le h1 (List.length_take_le _ _)
    simp only [List.getElem_take, List.getElem_drop]
    have h15 := h (1 + i) (by omega) (by omega)
    rw [List.getD_eq_getElem?_getD, List.getD_eq_getElem?_getD,
      List.getElem?_eq_getElem (show 1 + i < p.length by omega),
      List.getElem?_eq_getElem (show 1 + i < q.length by omega)] at h15
    simpa using h15

set_option maxHeartbeats 4000000 in
/-- C1: in every transmitted packet, the byte at offset 16 is the modulo-256
sum of the packet's own bytes at offsets 1 through 15; and the checksum of a
64-byte packet depends only on bytes 1 through 15, so two packets agreeing
there (whatever their other bytes) have the same checksum. -/
theorem c1_checksum_covers_bytes_1_to_15 :
    (∀ (fahrenheit : Bool) (power temp usage : ℕ),
      (stampPacket fahrenheit power temp usage).getD 16 0 =
        checksum (stampPacket fahrenheit power temp usage)) ∧
    (∀ p q : List ℕ, p.length = 64 → q.length = 64 →
      (∀ i, 1 ≤ i → i ≤ 15 → p.getD i 0 = q.getD i 0) →
      checksum p = checksum q) := by
  constructor
  · intro fahrenheit power temp usage
    rfl
  · intro p q hp hq h
    unfold checksum
    rw [slice_1_15_congr p q hp hq h]

set_option maxHeartbeats 2000000 in
/-- Witness for C1 at concrete packets: a stamped packet with all-zero
metrics satisfies the offset-16 property, and two concrete 64-byte buffers
differing only at offsets 0 and 20 have equal checksums. -/
theorem c1_checksum_witness :
    (stampPacket false 0 0 0).getD 16 0 =
      checksum (stampPacket false 0 0 0) ∧
    checksum base_data = checksum ((base_data.set 0 99).set 20 7) :=
  ⟨c1_checksum_covers_bytes_1_to_15.1 false 0 0 0,
   c1_checksum_covers_bytes_1_to_15.2 base_data
     ((base_data.set 0 99).set 20 7) (by decide) (by decide)
     (fun i h1 h2 => by interval_cases i <;> rfl)⟩

/-- C2: with RAPL present, a nonzero baseline, a nonzero elapsed time, and a
nonzero live reading at least the baseline, `get_power` returns the rounded
quotient of the plain energy delta by `delta_millisec * 1000`, capped at
999. -/
theorem c2_get_power_no_wrap (cpu : Cpu) (initial_energy delta_millisec : ℕ)
    (energyRaw : Option ℕ)
    (hr : cpu.rapl_max_uj ≠ 0) (hi : initial_energy ≠ 0)
    (hd : delta_millisec ≠ 0) (hc : read_energy cpu energyRaw ≠ 0)
    (hge : read_energy cpu energyRaw ≥ initial_energy) :
    get_power cpu initial_energy delta_millisec energyRaw =
      (min (round (((read_energy cpu energyRaw - initial_energy : ℕ) : ℚ) /
        ((delta_millisec : ℚ) * 1000))) 999).toNat := by
  unfold get_power
  simp [hr, hi, hd, hc, hge]

/-- Witness for C2 at the spec's worked example: range 1000000 µJ, baseline
200000 µJ, live reading 250000 µJ, interval 1000 ms. -/
theorem c2_get_power_no_wrap_witness :
    get_power ⟨none, 1000000⟩ 200000 1000 (some 250000) =
      (min (round (((read_energy ⟨none, 1000000⟩ (some 250000) - 200000 : ℕ) :
        ℚ) / ((1000 : ℚ) * 1000))) 999).toNat :=
  c2_get_power_no_wrap ⟨none, 1000000⟩ 200000 1000 (some 250000)
    (by decide) (by decide) (by decide) (by decide) (by decide)

/-- C3: with RAPL present, a nonzero baseline, a nonzero elapsed time, and a
nonzero live reading strictly below the baseline, `get_power` applies the
wraparound correction `(max_range + current) - baseline` before dividing,
rounding and capping at 999. -/
theorem c3_get_power_wrap (cpu : Cpu) (initial_energy delta_millisec : ℕ)
    (energyRaw : Option ℕ)
    (hr : cpu.rapl_max_uj ≠ 0) (hi : initial_energy ≠ 0)
    (hd : delta_millisec ≠ 0) (hc : read_energy cpu energyRaw ≠ 0)
    (hlt : read_energy cpu energyRaw < initial_energy) :
    get_power cpu initial_energy delta_millisec energyRaw =
      (min (round ((((cpu.rapl_max_uj + read_energy cpu energyRaw) -
        initial_energy : ℕ) : ℚ) / ((delta_millisec : ℚ) * 1000))) 999).toNat := by
  unfold get_power
  have hnge : ¬ read_energy cpu energyRaw ≥ initial_energy := by omega
  simp [hr, hi, hd, hc, hnge]

/-- Witness for C3: range 1000000 µJ, baseline 900000 µJ, live reading
100000 µJ after a counter wrap, interval 1000 ms. -/
theorem c3_get_power_wrap_witness :
    get_power ⟨none, 1000000⟩ 900000 1000 (some 100000) =
      (min (round (((1000000 + read_energy ⟨none, 1000000⟩ (some 100000) -
        900000 : ℕ) : ℚ) / ((1000 : ℚ) * 1000))) 999).toNat :=
  c3_get_power_wrap ⟨none, 1000000⟩ 900000 1000 (some 100000)
    (by decide) (by decide) (by decide) (by decide) (by decide)

/-- C4: `get_power` returns 0 when RAPL is absent, when the baseline energy
is 0, when the elapsed time is 0, or when the live reading is 0; and when the
probed energy range is 0, bytes 8 and 9 (the power field) of the transmitted
packet are 0 whatever the other readings are. -/
theorem c4_get_power_zero_cases :
    (∀ (cpu : Cpu) (i d : ℕ) (raw : Option ℕ), cpu.rapl_max_uj = 0 →
      get_power cpu i d raw = 0) ∧
    (∀ (cpu : Cpu) (d : ℕ) (raw : Option ℕ), get_power cpu 0 d raw = 0) ∧
    (∀ (cpu : Cpu) (i : ℕ) (raw : Option ℕ), get_power cpu i 0 raw = 0) ∧
    (∀ (cpu : Cpu) (i d : ℕ) (raw : Option ℕ), read_energy cpu raw = 0 →
      get_power cpu i d raw = 0) ∧
    (∀ (cpu : Cpu) (fahrenheit : Bool) (update : ℕ) (w : World) (t0 : ℕ),
      cpu.rapl_max_uj = 0 →
      (runIteration cpu fahrenheit update w t0).1.getD 8 0 = 0 ∧
      (runIteration cpu fahrenheit update w t0).1.getD 9 0 = 0) := by
  refine ⟨?_, ?_, ?_, ?_, ?_⟩
  · intro cpu i d raw h
    unfold get_power
    simp [h]
  · intro cpu d raw
    unfold get_power
    simp
  · intro cpu i raw
    unfold get_power
    simp
  · intro cpu i d raw h
    unfold get_power
    simp [h]
  · intro cpu fahrenheit update w t0 h
    have he : read_energy cpu (w.energyRaw t0) = 0 := by
      unfold read_energy
      simp [h]
    simp only [runIteration, he, gt_iff_lt, lt_irrefl, if_false]
    exact ⟨rfl, rfl⟩

/-- Witness for C4 at concrete inputs: each zero case of `get_power`, and the
power bytes of a packet produced with a zero energy range. -/
theorem c4_get_power_zero_witness :
    get_power ⟨none, 0⟩ 5 7 (some 3) = 0 ∧
    get_power ⟨none, 9⟩ 0 7 (some 3) = 0 ∧
    get_power ⟨none, 9⟩ 5 0 (some 3) = 0 ∧
    get_power ⟨none, 9⟩ 5 7 none = 0 ∧
    (runIteration ⟨none, 0⟩ false 500
      ⟨fun _ => none, fun _ => some 11, fun _ _ => 0⟩ 0).1.getD 8 0 = 0 ∧
    (runIteration ⟨none, 0⟩ false 500
      ⟨fun _ => none, fun _ => some 11, fun _ _ => 0⟩ 0).1.getD 9 0 = 0 :=
  ⟨c4_get_power_zero_cases.1 ⟨none, 0⟩ 5 7 (some 3) rfl,
   c4_get_power_zero_cases.2.1 ⟨none, 9⟩ 7 (some 3),
   c4_get_power_zero_cases.2.2.1 ⟨none, 9⟩ 5 (some 3),
   c4_get_power_zero_cases.2.2.2.1 ⟨none, 9⟩ 5 7 none rfl,
   (c4_get_power_zero_cases.2.2.2.2 ⟨none, 0⟩ false 500
     ⟨fun _ => none, fun _ => some 11, fun _ _ => 0⟩ 0 rfl).1,
   (c4_get_power_zero_cases.2.2.2.2 ⟨none, 0⟩ false 500
     ⟨fun _ => none, fun _ => some 11, fun _ _ => 0⟩ 0 rfl).2⟩

/-- C5: when a sensor is present and the raw milli-degree reading parses to
`t`, the Fahrenheit path of `get_temp` forms the milli-Fahrenheit value
`t * 9 / 5 + 32000` and only then divides by 1000, rounds and casts. -/
theorem c5_fahrenheit_conversion (cpu : Cpu) (sensor : String) (t : ℕ)
    (h : cpu.temp_sensor = some sensor) :
    get_temp cpu (some t) true =
      natCastU8 (round (((t * 9 / 5 + 32000 : ℕ) : ℚ) / 1000)) := by
  unfold get_temp
  rw [h]
  rfl

/-- Witness for C5 at the raw reading 45000 (45.0 °C): the Fahrenheit path
computes from the milli-Fahrenheit value `45000 * 9 / 5 + 32000`. -/
theorem c5_fahrenheit_conversion_witness :
    get_temp ⟨some "hwmon0", 0⟩ (some 45000) true =
      natCastU8 (round (((45000 * 9 / 5 + 32000 : ℕ) : ℚ) / 1000)) :=
  c5_fahrenheit_conversion ⟨some "hwmon0", 0⟩ "hwmon0" 45000 rfl

/-- C6: when no temperature sensor was probed, `get_temp` returns 0 for both
unit settings and every read outcome; in the transmitted packet the
temperature field (offsets 11–14) then carries the big-endian IEEE-754
binary32 encoding of 0.0, i.e. four zero bytes, while the unit flag at
offset 10 still reflects the requested unit. -/
theorem c6_no_sensor_temp_zero (cpu : Cpu) (raw : Option ℕ)
    (fahrenheit : Bool) (update : ℕ) (w : World) (t0 : ℕ)
    (h : cpu.temp_sensor = none) :
    get_temp cpu raw fahrenheit = 0 ∧
    f32BitsOfNat 0 = 0 ∧
    (runIteration cpu fahrenheit update w t0).1.getD 11 0 = 0 ∧
    (runIteration cpu fahrenheit update w t0).1.getD 12 0 = 0 ∧
    (runIteration cpu fahrenheit update w t0).1.getD 13 0 = 0 ∧
    (runIteration cpu fahrenheit update w t0).1.getD 14 0 = 0 ∧
    (runIteration cpu fahrenheit update w t0).1.getD 10 0 =
      (if fahrenheit then 1 else 0) := by
  have ht : ∀ r, get_temp cpu r fahrenheit = 0 := by
    intro r
    unfold get_temp
    rw [h]
  refine ⟨ht raw, rfl, ?_, ?_, ?_, ?_, ?_⟩ <;>
    simp only [runIteration, ht] <;> rfl

/-- Witness for C6: a `Cpu` with no probed sensor, in Fahrenheit mode, with a
live (unused) raw reading present. -/
theorem c6_no_sensor_temp_zero_witness :
    get_temp ⟨none, 1000⟩ (some 45000) true = 0 ∧
    f32BitsOfNat 0 = 0 ∧
    (runIteration ⟨none, 1000⟩ true 750
      ⟨fun _ => some 45000, fun _ => some 11, fun _ _ => 0⟩ 3).1.getD 11 0 = 0 ∧
    (runIteration ⟨none, 1000⟩ true 750
      ⟨fun _ => some 45000, fun _ => some 11, fun _ _ => 0⟩ 3).1.getD 12 0 = 0 ∧
    (runIteration ⟨none, 1000⟩ true 750
      ⟨fun _ => some 45000, fun _ => some 11, fun _ _ => 0⟩ 3).1.getD 13 0 = 0 ∧
    (runIteration ⟨none, 1000⟩ true 750
      ⟨fun _ => some 45000, fun _ => some 11, fun _ _ => 0⟩ 3).1.getD 14 0 = 0 ∧
    (runIteration ⟨none, 1000⟩ true 750
      ⟨fun _ => some 45000, fun _ => some 11, fun _ _ => 0⟩ 3).1.getD 10 0 =
      (if true then 1 else 0) :=
  c6_no_sensor_temp_zero ⟨none, 1000⟩ (some 45000) true 750
    ⟨fun _ => some 45000, fun _ => some 11, fun _ _ => 0⟩ 3 rfl

/-- C7: whatever non-idle delta fraction the CPU-accounting primitive
reports — even one whose percentage scaling falls outside `[0, 100]` — the
usage value returned by `get_usage` lies between 0 and 100 inclusive. -/
theorem c7_usage_clamped (nonIdleDelta : ℚ) :
    0 ≤ get_usage nonIdleDelta ∧ get_usage nonIdleDelta ≤ 100 := by
  refine ⟨Nat.zero_le _, ?_⟩
  show (min (max (round (nonIdleDelta * 100)) 0) 100).toNat ≤ 100
  exact Int.toNat_le.mpr (by exact_mod_cast min_le_right _ _)

/-- Identity recomposing a big-endian `u16` from its two bytes; used to read
the power field back out of a packet. -/
lemma be16_recompose (p : ℕ) : p % 65536 / 256 * 256 + p % 256 = p % 65536 := by
  omega

set_option maxHeartbeats 4000000 in
/-- Every stamped packet keeps the template's first 8 bytes and its zero tail
beyond offset 17, whatever metric values are stamped in. -/
lemma stampPacket_base_bytes (fahrenheit : Bool) (power temp usage : ℕ) :
    (stampPacket fahrenheit power temp usage).take 8 = base_data.take 8 ∧
    (stampPacket fahrenheit power temp usage).drop 18 = base_data.drop 18 :=
  ⟨rfl, rfl⟩

set_option maxHeartbeats 1000000 in
/-- C8: every transmitted packet starts from the constant header template:
its first 8 bytes are the fixed header constants `16, 104, 1, 2, 11, 1, 2, 5`
of `base_data` and its bytes 18–63 are, like those of `base_data`, all
zero — for every stamped packet and for every loop iteration's packet. -/
theorem c8_header_template_invariant :
    (∀ (fahrenheit : Bool) (power temp usage : ℕ),
      (stampPacket fahrenheit power temp usage).take 8 = base_data.take 8 ∧
      (stampPacket fahrenheit power temp usage).drop 18 = base_data.drop 18) ∧
    (∀ (cpu : Cpu) (fahrenheit : Bool) (update : ℕ) (w : World) (t0 : ℕ),
      (runIteration cpu fahrenheit update w t0).1.take 8 = base_data.take 8 ∧
      (runIteration cpu fahrenheit update w t0).1.drop 18 = base_data.drop 18) ∧
    base_data.take 8 = [16, 104, 1, 2, 11, 1, 2, 5] ∧
    base_data.drop 18 = List.replicate 46 0 := by
  refine ⟨fun fahrenheit power temp usage =>
    stampPacket_base_bytes fahrenheit power temp usage,
    fun cpu fahrenheit update w t0 => ?_, rfl, by decide⟩
  exact stampPacket_base_bytes fahrenheit _ _ _

/-- C9: in each loop iteration entered at clock `t0`, the iteration ends at
clock `t0 + update`; the usage byte is computed from the CPU instants
captured at `t0` (before the sleep) and `t0 + update` (after it); the power
field is computed from the energy reading taken at `t0` as baseline and the
live reading taken at `t0 + update`; and the temperature bytes come from the
sensor read at `t0 + update`.  Every delta-based metric therefore spans
exactly one sleep interval. -/
theorem c9_deltas_span_one_interval (cpu : Cpu) (fahrenheit : Bool)
    (update : ℕ) (w : World) (t0 : ℕ) :
    (runIteration cpu fahrenheit update w t0).2 = t0 + update ∧
    (runIteration cpu fahrenheit update w t0).1.getD 15 0 =
      get_usage (w.nonIdle t0 (t0 + update)) ∧
    ((runIteration cpu fahrenheit update w t0).1.getD 8 0) * 256 +
      (runIteration cpu fahrenheit update w t0).1.getD 9 0 =
      (if read_energy cpu (w.energyRaw t0) > 0
       then get_power cpu (read_energy cpu (w.energyRaw t0)) update
         (w.energyRaw (t0 + update))
       else 0) % 65536 ∧
    (runIteration cpu fahrenheit update w t0).1.getD 11 0 =
      f32BitsOfNat (get_temp cpu (w.tempRaw (t0 + update)) fahrenheit) /
        2 ^ 24 % 256 ∧
    (runIteration cpu fahrenheit update w t0).1.getD 14 0 =
      f32BitsOfNat (get_temp cpu (w.tempRaw (t0 + update)) fahrenheit) % 256 := by
  refine ⟨rfl, rfl, ?_, rfl, rfl⟩
  exact be16_recompose _

/-- C10: whenever the converted, rounded temperature value exceeds 255, the
final `as u8` cast saturates and `get_temp` returns exactly 255. -/
theorem c10_temp_cast_saturates (cpu : Cpu) (sensor : String) (t : ℕ)
    (fahrenheit : Bool) (h : cpu.temp_sensor = some sensor)
    (hbig : 255 <
      round (((if fahrenheit then t * 9 / 5 + 32000 else t : ℕ) : ℚ) / 1000)) :
    get_temp cpu (some t) fahrenheit = 255 := by
  unfold get_temp
  rw [h]
  show natCastU8
    (round (((if fahrenheit then t * 9 / 5 + 32000 else t : ℕ) : ℚ) / 1000)) =
    255
  unfold natCastU8
  rw [max_eq_left (le_trans (by norm_num) (le_of_lt hbig)),
    min_eq_right (le_of_lt hbig)]
  rfl

/-- Witness for C10 at raw reading 300000 in Celsius mode: the converted
value rounds to 300, above 255, and `get_temp` returns 255. -/
theorem c10_temp_cast_saturates_witness :
    get_temp ⟨some "hwmon0", 0⟩ (some 300000) false = 255 :=
  c10_temp_cast_saturates ⟨some "hwmon0", 0⟩ "hwmon0" 300000 false rfl
    (by
      have he : (((if false then 300000 * 9 / 5 + 32000 else 300000 : ℕ) : ℚ)
          / 1000) = ((300 : ℤ) : ℚ) := by norm_num
      rw [he, round_intCast]
      norm_num)

end DeepCool
